import Mathlib

/-!
# Shallow embedding of the lxmonika process-handler registry and the Monix loader

This file embeds the two source files of the repository:

* `src/lxmonika/ProcessMap.cpp` — the per-process handler registry backed by an
  AVL generic table (`RTL_AVL_TABLE`).  The table is modelled as an association
  list with unique keys; the AVL routines are modelled by their documented
  semantics: `RtlLookupElementGenericTableAvl` finds the (unique) node with a
  matching key, `RtlInsertElementGenericTableAvl` looks the key up first and
  allocates a fresh node only when the key is absent (`bNewEntry` reports
  whether a fresh node was made; a failed allocation yields a null pointer),
  and `RtlDeleteElementGenericTableAvl` removes the matching node, returning
  whether one was found.  Allocation success is an explicit `Bool` oracle.

* `src/mxss/monix/src/loader.cpp` — the user-mode loader.  Only its computable
  decisions are embedded: the digit-rendering loop of `LinuxFail`, the observable
  sequence of raw syscalls `LinuxFail` issues, and the error test and device-mode
  constant of the `mknod` bootstrap step in `_start`.
-/

/-- The NTSTATUS values that appear in `ProcessMap.cpp`.  All of them except
`STATUS_SUCCESS` are error statuses (negative as 32-bit values), so
`NT_SUCCESS` holds exactly for `Success`. -/
inductive NtStatus where
  | Success
  | InvalidParameter
  | NotFound
  | AlreadyRegistered
  | InsufficientResources
  | NotImplemented
deriving DecidableEq, Repr

/-- Embeds `NT_SUCCESS(status)` — true iff the status is non-negative; of the statuses
used by `ProcessMap.cpp` only `STATUS_SUCCESS` qualifies. -/
def NT_SUCCESS (s : NtStatus) : Bool := s == NtStatus.Success

/-- A `DWORD` handler identifier.  Handler values stored by the code are 32-bit;
the only cast the code performs is `(DWORD)-1`, embedded as `sentinelHandler`. -/
abbrev DWORD := Nat

/-- A `PEPROCESS`: an opaque process identity used purely as a comparable key
(`_CompareRoutine` orders nodes by raw pointer value and never dereferences). -/
abbrev PEPROCESS := Nat

/-- The sentinel `(DWORD)-1` handler used by `ProcessMap::SwitchProcessHandler`
for the implicit registration of a not-yet-seen process. -/
def sentinelHandler : DWORD := 4294967295

/-- The struct `PROCESS_HANDLER_INFORMATION`, the value part of a registry node. -/
structure PROCESS_HANDLER_INFORMATION where
  Handler : DWORD
  HasParentHandler : Bool
  HasInternalParentHandler : Bool
  ParentHandler : DWORD
deriving DecidableEq, Repr

/-- The registry state: the `RTL_AVL_TABLE` keyed by `PEPROCESS`, modelled as an
association list of `_NODE`s (`Key`, `Value`).  All operations keep keys unique,
as the AVL table does. -/
abbrev ProcessMapState := List (PEPROCESS × PROCESS_HANDLER_INFORMATION)

/-- Embeds `RtlLookupElementGenericTableAvl` via `ProcessMap::operator[]`: the value of
the node whose key matches, if any. -/
def pmLookup (m : ProcessMapState) (p : PEPROCESS) : Option PROCESS_HANDLER_INFORMATION :=
  (m.find? (fun e => e.1 == p)).map Prod.snd

/-- In-place mutation through the pointer returned by `operator[]`: replace the
value of the (first) node whose key is `p`. -/
def pmUpdate (m : ProcessMapState) (p : PEPROCESS)
    (v : PROCESS_HANDLER_INFORMATION) : ProcessMapState :=
  match m with
  | [] => []
  | e :: rest => if e.1 == p then (p, v) :: rest else e :: pmUpdate rest p v

/-- Embeds `RtlDeleteElementGenericTableAvl`: remove the (first) node whose key is `p`. -/
def pmErase (m : ProcessMapState) (p : PEPROCESS) : ProcessMapState :=
  match m with
  | [] => []
  | e :: rest => if e.1 == p then rest else e :: pmErase rest p

/-- The multiset of keys present in the table. -/
def pmKeys (m : ProcessMapState) : List PEPROCESS := m.map Prod.fst

/-- Embeds `ProcessMap::Clear`: enumerate-and-drain every node. -/
def ProcessMapClear (_m : ProcessMapState) : ProcessMapState := []

/-- Embeds `ProcessMap::ProcessBelongsToHandler`. -/
def ProcessBelongsToHandler (m : ProcessMapState) (process : PEPROCESS)
    (handler : DWORD) : Bool :=
  match pmLookup m process with
  | none => false
  | some pInfo => pInfo.Handler == handler

/-- Embeds `ProcessMap::GetProcessHandler` (the `DWORD*` overload).  `outIsNull` models
whether the caller passed a null out-pointer; the `Option DWORD` is the value
written through the pointer, if any. -/
def GetProcessHandler (outIsNull : Bool) (m : ProcessMapState)
    (process : PEPROCESS) : NtStatus × Option DWORD :=
  if outIsNull then (NtStatus.InvalidParameter, none)
  else
    match pmLookup m process with
    | none => (NtStatus.NotFound, none)
    | some pInfo => (NtStatus.Success, some pInfo.Handler)

/-- Embeds `ProcessMap::GetProcessHandler` (the `PPROCESS_HANDLER_INFORMATION`
overload): copies the full entry out. -/
def GetProcessHandlerFull (outIsNull : Bool) (m : ProcessMapState)
    (process : PEPROCESS) : NtStatus × Option PROCESS_HANDLER_INFORMATION :=
  if outIsNull then (NtStatus.InvalidParameter, none)
  else
    match pmLookup m process with
    | none => (NtStatus.NotFound, none)
    | some pInfo => (NtStatus.Success, some pInfo)

/-- Embeds `ProcessMap::RegisterProcessHandler`.  The node is `memset` to zero and then
`Key`/`Value.Handler` are set, so a fresh entry is
`{Handler := handler, HasParentHandler := false, HasInternalParentHandler := false,
ParentHandler := 0}`.  `RtlInsertElementGenericTableAvl` finds an existing node
first (then `bNewEntry = FALSE`, no allocation: `STATUS_ALREADY_REGISTERED`);
otherwise it allocates, and a failed allocation (`allocOk = false`) returns a
null pointer: `STATUS_INSUFFICIENT_RESOURCES`. -/
def RegisterProcessHandler (allocOk : Bool) (m : ProcessMapState)
    (process : PEPROCESS) (handler : DWORD) : NtStatus × ProcessMapState :=
  match pmLookup m process with
  | some _ => (NtStatus.AlreadyRegistered, m)
  | none =>
    if allocOk then
      (NtStatus.Success,
        m ++ [(process, ⟨handler, false, false, 0⟩)])
    else
      (NtStatus.InsufficientResources, m)

/-- Embeds `ProcessMap::SwitchProcessHandler`.  If the process has no entry it is
implicitly registered under `(DWORD)-1` (`bHasInternalProvider` becomes
`FALSE`), a failed registration being returned verbatim.  A second delegation
(`HasParentHandler` already set) fails with `STATUS_NOT_IMPLEMENTED` and no
mutation.  Otherwise the entry is mutated in place:
`HasParentHandler := TRUE`, `HasInternalParentHandler := bHasInternalProvider`,
`ParentHandler := pInfo->Handler`, `Handler := newHandler`. -/
def SwitchProcessHandler (allocOk : Bool) (m : ProcessMapState)
    (process : PEPROCESS) (newHandler : DWORD) : NtStatus × ProcessMapState :=
  match pmLookup m process with
  | some pInfo =>
    if pInfo.HasParentHandler then
      (NtStatus.NotImplemented, m)
    else
      (NtStatus.Success,
        pmUpdate m process ⟨newHandler, true, true, pInfo.Handler⟩)
  | none =>
    match RegisterProcessHandler allocOk m process sentinelHandler with
    | (status, m1) =>
      if !(NT_SUCCESS status) then (status, m1)
      else
        match pmLookup m1 process with
        | none =>
          -- dead branch: the source asserts `pInfo != NULL` here
          (NtStatus.NotFound, m1)
        | some pInfo =>
          if pInfo.HasParentHandler then
            (NtStatus.NotImplemented, m1)
          else
            (NtStatus.Success,
              pmUpdate m1 process ⟨newHandler, true, false, pInfo.Handler⟩)

/-- Embeds `ProcessMap::UnregisterProcess`: `RtlDeleteElementGenericTableAvl` removes
the node if present; `STATUS_NOT_FOUND` otherwise. -/
def UnregisterProcess (m : ProcessMapState) (process : PEPROCESS) :
    NtStatus × ProcessMapState :=
  if (pmLookup m process).isSome then
    (NtStatus.Success, pmErase m process)
  else
    (NtStatus.NotFound, m)

/-- One public mutating registry operation, for reasoning about arbitrary
operation sequences. -/
inductive RegistryOp where
  | register (allocOk : Bool) (process : PEPROCESS) (handler : DWORD)
  | switch (allocOk : Bool) (process : PEPROCESS) (handler : DWORD)
  | unregister (process : PEPROCESS)
  | clear
deriving DecidableEq, Repr

/-- Apply one registry operation to the state. -/
def applyOp (m : ProcessMapState) : RegistryOp → ProcessMapState
  | RegistryOp.register allocOk p h => (RegisterProcessHandler allocOk m p h).2
  | RegistryOp.switch allocOk p h => (SwitchProcessHandler allocOk m p h).2
  | RegistryOp.unregister p => (UnregisterProcess m p).2
  | RegistryOp.clear => ProcessMapClear m

/-- Run a sequence of registry operations from the freshly initialized (empty)
registry. -/
def runOps (ops : List RegistryOp) : ProcessMapState :=
  ops.foldl applyOp []

/-!
## Lock usage of the registry operations

`ProcessMap::Initialize` initializes `m_mutex` with `ExInitializeFastMutex`,
but no method of `ProcessMap.cpp` ever acquires or releases it: the strings
`ExAcquireFastMutex` / `ExReleaseFastMutex` do not occur in the translation
unit.  The definitions below record, for each public operation, the exact
sequence of lock acquire/release actions its body performs in the source. -/

/-- A lock action on the registry's `m_mutex`. -/
inductive LockEvent where
  | acquire
  | release
deriving DecidableEq, Repr

/-- Lock actions performed by `ProcessMap::operator[]` (lookup): none. -/
def lookupLockEvents : List LockEvent := []

/-- Lock actions performed by `ProcessMap::RegisterProcessHandler`: none. -/
def registerLockEvents : List LockEvent := []

/-- Lock actions performed by `ProcessMap::GetProcessHandler` (both overloads):
none. -/
def getHandlerLockEvents : List LockEvent := []

/-- Lock actions performed by `ProcessMap::ProcessBelongsToHandler`: none. -/
def belongsToHandlerLockEvents : List LockEvent := []

/-- Lock actions performed by `ProcessMap::SwitchProcessHandler`: none. -/
def switchLockEvents : List LockEvent := []

/-- Lock actions performed by `ProcessMap::UnregisterProcess`: none. -/
def unregisterLockEvents : List LockEvent := []

/-!
## The Monix loader (`loader.cpp`)
-/

/-- An observable raw-syscall action issued by the loader: a `write` of a byte
string to a file descriptor, or a process `exit` with a status. -/
inductive SysEvent where
  | write (fd : Nat) (bytes : List Nat)
  | exitWith (code : Nat)
deriving DecidableEq, Repr

/-- The digit loop of `LinuxFail`, with explicit fuel for structural recursion
(the loop runs `⌊log10 s⌋ + 1 ≤ s + 1` times, so `s + 1` fuel is enough).  Each
iteration appends `(status % 10) + '0'` and divides by 10, repeating while the
quotient is nonzero — so the digits come out least-significant first. -/
def failDigitsGo (fuel : Nat) (s : Nat) : List Nat :=
  match fuel with
  | 0 => []
  | fuel + 1 =>
    let d := s % 10 + 48
    if s / 10 = 0 then [d] else d :: failDigitsGo fuel (s / 10)

/-- The byte list produced by the do-while digit loop of `LinuxFail` for the
(already negated, non-negative) status `s`. -/
def failDigitsLoop (s : Nat) : List Nat := failDigitsGo (s + 1) s

/-- Embeds `LinuxFail(message, messageSize, status)`: negates the status, builds
`statusString` = `": "` ++ digit loop output ++ `"\n"`, then issues three raw
syscalls: `write(2, message)`, `write(2, statusString)`, `exit(status)`.  The
digit loop mutates `status` (`status /= 10`) and only exits once it reaches 0,
so the trailing `LinuxSyscall(SYS_exit, status)` always passes 0. -/
def LinuxFail (message : List Nat) (status : Int) : List SysEvent :=
  let s : Nat := (-status).toNat
  let statusString : List Nat := [58, 32] ++ failDigitsLoop s ++ [10]
  [SysEvent.write 2 message, SysEvent.write 2 statusString, SysEvent.exitWith 0]

/-- Modelled from the spec: the "decimal rendering of the negated status code
(most significant digit first)" that §4.4/§6 claim `LinuxFail` writes — the
usual decimal numeral, as bytes. -/
def msdDecimalRendering (s : Nat) : List Nat :=
  (Nat.toDigits 10 s).map Char.toNat

/-- The mode bit `S_IFCHR` (character-device file type), POSIX value `0o20000`. -/
def S_IFCHR : Nat := 8192

/-- The mode bit `S_IRUSR` = `0o400`: read permission, owner. -/
def S_IRUSR : Nat := 256

/-- The mode bit `S_IRGRP` = `0o40`: read permission, group. -/
def S_IRGRP : Nat := 32

/-- The mode bit `S_IROTH` = `0o4`: read permission, others. -/
def S_IROTH : Nat := 4

/-- The errno `EEXIST` (Linux errno 17). -/
def EEXIST : Int := 17

/-- The mode `_start` passes to `mknod` for `/dev/reality`:
`S_IFCHR | (S_IRUSR | S_IRGRP | S_IROTH)`. -/
def realityDeviceMode : Nat := S_IFCHR ||| (S_IRUSR ||| S_IRGRP ||| S_IROTH)

/-- The test `_start` applies to the `mknod` status: the fatal diagnostic path
(`LinuxFail`) is taken iff `status < 0 && status != -EEXIST`; otherwise the
loader proceeds to open the device. -/
def mknodStepFatal (status : Int) : Bool :=
  decide (status < 0) && status != -EEXIST

/-!
## Helper lemmas about the table model
-/

theorem pmLookup_cons (e : PEPROCESS × PROCESS_HANDLER_INFORMATION)
    (rest : ProcessMapState) (p : PEPROCESS) :
    pmLookup (e :: rest) p = if e.1 = p then some e.2 else pmLookup rest p := by
  by_cases h : e.1 = p
  · simp [pmLookup, List.find?_cons_of_pos, h]
  · simp [pmLookup, List.find?_cons_of_neg, h]

theorem pmLookup_eq_none_iff (m : ProcessMapState) (p : PEPROCESS) :
    pmLookup m p = none ↔ p ∉ pmKeys m := by
  induction m with
  | nil => simp [pmLookup, pmKeys]
  | cons e rest ih =>
    rw [pmLookup_cons]
    have hk : pmKeys (e :: rest) = e.1 :: pmKeys rest := rfl
    rw [hk, List.mem_cons]
    by_cases he : e.1 = p
    · simp [he]
    · rw [if_neg he, ih]
      have hne : ¬ p = e.1 := fun hq => he hq.symm
      simp [hne]

theorem pmLookup_update_self (m : ProcessMapState) (p : PEPROCESS)
    (v i : PROCESS_HANDLER_INFORMATION) (h : pmLookup m p = some i) :
    pmLookup (pmUpdate m p v) p = some v := by
  induction m with
  | nil => simp [pmLookup] at h
  | cons e rest ih =>
    by_cases he : e.1 = p
    · simp [pmUpdate, he, pmLookup_cons]
    · rw [pmLookup_cons, if_neg he] at h
      simp [pmUpdate, he, pmLookup_cons, ih h]

theorem pmKeys_update (m : ProcessMapState) (p : PEPROCESS)
    (v : PROCESS_HANDLER_INFORMATION) : pmKeys (pmUpdate m p v) = pmKeys m := by
  induction m with
  | nil => rfl
  | cons e rest ih =>
    by_cases he : e.1 = p
    · simp [pmUpdate, he, pmKeys]
    · simpa [pmUpdate, he, pmKeys] using ih

theorem pmLookup_append_self (m : ProcessMapState) (p : PEPROCESS)
    (v : PROCESS_HANDLER_INFORMATION) (h : pmLookup m p = none) :
    pmLookup (m ++ [(p, v)]) p = some v := by
  induction m with
  | nil => rw [List.nil_append, pmLookup_cons]; simp
  | cons e rest ih =>
    rw [pmLookup_cons] at h
    rw [List.cons_append, pmLookup_cons]
    by_cases he : e.1 = p
    · simp [he] at h
    · rw [if_neg he] at h
      rw [if_neg he]
      exact ih h

theorem pmErase_append_self (m : ProcessMapState) (p : PEPROCESS)
    (v : PROCESS_HANDLER_INFORMATION) (h : pmLookup m p = none) :
    pmErase (m ++ [(p, v)]) p = m := by
  induction m with
  | nil => simp [pmErase]
  | cons e rest ih =>
    rw [pmLookup_cons] at h
    by_cases he : e.1 = p
    · simp [he] at h
    · rw [if_neg he] at h
      simp [pmErase, he, ih h]

theorem pmErase_sublist (m : ProcessMapState) (p : PEPROCESS) :
    List.Sublist (pmErase m p) m := by
  induction m with
  | nil => simp [pmErase]
  | cons e rest ih =>
    by_cases he : e.1 = p
    · simp [pmErase, he]
    · simpa [pmErase, he] using ih.cons₂ e

theorem pmLookup_erase_self (m : ProcessMapState) (p : PEPROCESS)
    (h : (pmKeys m).Nodup) : pmLookup (pmErase m p) p = none := by
  induction m with
  | nil => rfl
  | cons e rest ih =>
    simp only [pmKeys, List.map_cons, List.nodup_cons] at h
    by_cases he : e.1 = p
    · have hr : pmErase (e :: rest) p = rest := by simp [pmErase, he]
      rw [hr]
      exact (pmLookup_eq_none_iff rest p).mpr (he ▸ h.1)
    · have hr : pmErase (e :: rest) p = e :: pmErase rest p := by simp [pmErase, he]
      rw [hr, pmLookup_cons, if_neg he]
      exact ih h.2

theorem pmKeys_nodup_register (b : Bool) (m : ProcessMapState) (p : PEPROCESS)
    (h0 : DWORD) (h : (pmKeys m).Nodup) :
    (pmKeys (RegisterProcessHandler b m p h0).2).Nodup := by
  unfold RegisterProcessHandler
  cases hl : pmLookup m p with
  | some i => exact h
  | none =>
    by_cases hb : b
    · have hp : p ∉ pmKeys m := (pmLookup_eq_none_iff m p).mp hl
      simp only [hb, if_pos]
      show (pmKeys (m ++ [(p, ⟨h0, false, false, 0⟩)])).Nodup
      have hk : pmKeys (m ++ [(p, ⟨h0, false, false, 0⟩)]) = pmKeys m ++ [p] := by
        simp [pmKeys]
      rw [hk]
      refine ((List.perm_append_singleton _ _).nodup_iff).mpr ?_
      exact List.nodup_cons.mpr ⟨hp, h⟩
    · simpa [hb] using h

theorem pmKeys_nodup_switch (b : Bool) (m : ProcessMapState) (p : PEPROCESS)
    (hnew : DWORD) (h : (pmKeys m).Nodup) :
    (pmKeys (SwitchProcessHandler b m p hnew).2).Nodup := by
  unfold SwitchProcessHandler
  cases hl : pmLookup m p with
  | some pInfo =>
    by_cases hp : pInfo.HasParentHandler
    · simpa [hp] using h
    · simpa [hp, pmKeys_update] using h
  | none =>
    have hreg := pmKeys_nodup_register b m p sentinelHandler h
    cases hr : RegisterProcessHandler b m p sentinelHandler with
    | mk status m1 =>
      have hm1 : (pmKeys m1).Nodup := by rw [hr] at hreg; exact hreg
      by_cases hs : NT_SUCCESS status
      · simp only [hs, Bool.not_true, Bool.false_eq_true, if_false]
        cases hl1 : pmLookup m1 p with
        | none => exact hm1
        | some pInfo =>
          by_cases hpp : pInfo.HasParentHandler
          · simpa [hpp] using hm1
          · simpa [hpp, pmKeys_update] using hm1
      · simpa [hs] using hm1

theorem pmKeys_nodup_unregister (m : ProcessMapState) (p : PEPROCESS)
    (h : (pmKeys m).Nodup) : (pmKeys (UnregisterProcess m p).2).Nodup := by
  unfold UnregisterProcess
  by_cases hl : (pmLookup m p).isSome
  · simp only [hl, if_pos]
    exact h.sublist ((pmErase_sublist m p).map Prod.fst)
  · simpa [hl] using h

theorem pmKeys_nodup_applyOp (m : ProcessMapState) (op : RegistryOp)
    (h : (pmKeys m).Nodup) : (pmKeys (applyOp m op)).Nodup := by
  cases op with
  | register b p h0 => exact pmKeys_nodup_register b m p h0 h
  | switch b p h0 => exact pmKeys_nodup_switch b m p h0 h
  | unregister p => exact pmKeys_nodup_unregister m p h
  | clear => simp [applyOp, ProcessMapClear, pmKeys]

theorem pmKeys_nodup_runOps (ops : List RegistryOp) :
    (pmKeys (runOps ops)).Nodup := by
  suffices h : ∀ m : ProcessMapState,
      (pmKeys m).Nodup → (pmKeys (ops.foldl applyOp m)).Nodup by
    exact h [] (by simp [pmKeys])
  induction ops with
  | nil => intro m hm; simpa using hm
  | cons op rest ih =>
    intro m hm
    exact ih (applyOp m op) (pmKeys_nodup_applyOp m op hm)

/-!
## Claims
-/

/-- C1: for a process whose entry already has `HasParentHandler` set (a
successful switch has already occurred), any further
`SwitchProcessHandler(P, H3)` returns `STATUS_NOT_IMPLEMENTED` and leaves the
registry — in particular P's entry and all four of its fields — unchanged. -/
theorem C1_switch_after_delegation_not_implemented (b : Bool)
    (m : ProcessMapState) (p : PEPROCESS) (h3 : DWORD)
    (info : PROCESS_HANDLER_INFORMATION)
    (hl : pmLookup m p = some info) (hp : info.HasParentHandler = true) :
    SwitchProcessHandler b m p h3 = (NtStatus.NotImplemented, m) := by
  unfold SwitchProcessHandler
  rw [hl]
  simp [hp]

/-- Witness for C1: a concrete delegated entry rejects a further switch. -/
theorem C1_witness :
    SwitchProcessHandler true [(1, ⟨5, true, true, 7⟩)] 1 9
      = (NtStatus.NotImplemented, [(1, ⟨5, true, true, 7⟩)]) :=
  C1_switch_after_delegation_not_implemented true [(1, ⟨5, true, true, 7⟩)] 1 9
    ⟨5, true, true, 7⟩ (by decide) (by decide)

/-- C2: from `Registered(H1)` (entry present, `HasParentHandler` false), a
`SwitchProcessHandler(P, H2)` succeeds, and the full-entry
`GetProcessHandler` overload then reports `Handler = H2`,
`HasParentHandler = true` and `ParentHandler = H1` (the pre-switch handler);
the pre-switch owner being explicitly registered, `HasInternalParentHandler`
is also `true`. -/
theorem C2_switch_from_registered (b : Bool) (m : ProcessMapState)
    (p : PEPROCESS) (h1 h2 : DWORD) (info : PROCESS_HANDLER_INFORMATION)
    (hl : pmLookup m p = some info) (hp : info.HasParentHandler = false)
    (hh : info.Handler = h1) :
    (SwitchProcessHandler b m p h2).1 = NtStatus.Success ∧
      GetProcessHandlerFull false (SwitchProcessHandler b m p h2).2 p
        = (NtStatus.Success, some ⟨h2, true, true, h1⟩) := by
  have hsw : SwitchProcessHandler b m p h2
      = (NtStatus.Success, pmUpdate m p ⟨h2, true, true, h1⟩) := by
    unfold SwitchProcessHandler
    rw [hl]
    simp [hp, hh]
  rw [hsw]
  refine ⟨rfl, ?_⟩
  unfold GetProcessHandlerFull
  rw [pmLookup_update_self m p ⟨h2, true, true, h1⟩ info hl]
  rfl

/-- Witness for C2: switching a concrete `Registered(5)` process to handler 8. -/
theorem C2_witness :
    (SwitchProcessHandler true [(1, ⟨5, false, false, 0⟩)] 1 8).1
        = NtStatus.Success ∧
      GetProcessHandlerFull false
          (SwitchProcessHandler true [(1, ⟨5, false, false, 0⟩)] 1 8).2 1
        = (NtStatus.Success, some ⟨8, true, true, 5⟩) :=
  C2_switch_from_registered true [(1, ⟨5, false, false, 0⟩)] 1 5 8
    ⟨5, false, false, 0⟩ (by decide) (by decide) (by decide)

/-- C3: on a process with no entry, `SwitchProcessHandler(P, H2)` implicitly
registers P under the sentinel `(DWORD)-1` and performs the handoff: on
success the entry is `{Handler := H2, HasParentHandler := true,
HasInternalParentHandler := false, ParentHandler := sentinel}`; if the implicit
registration's allocation fails, `STATUS_INSUFFICIENT_RESOURCES` is returned
verbatim and P still has no entry. -/
theorem C3_switch_unregistered (m : ProcessMapState) (p : PEPROCESS)
    (h2 : DWORD) (hl : pmLookup m p = none) :
    (SwitchProcessHandler true m p h2).1 = NtStatus.Success ∧
      pmLookup (SwitchProcessHandler true m p h2).2 p
        = some ⟨h2, true, false, sentinelHandler⟩ ∧
      SwitchProcessHandler false m p h2 = (NtStatus.InsufficientResources, m) ∧
      pmLookup (SwitchProcessHandler false m p h2).2 p = none := by
  have hreg : RegisterProcessHandler true m p sentinelHandler
      = (NtStatus.Success, m ++ [(p, ⟨sentinelHandler, false, false, 0⟩)]) := by
    unfold RegisterProcessHandler
    rw [hl]
    rfl
  have hregf : RegisterProcessHandler false m p sentinelHandler
      = (NtStatus.InsufficientResources, m) := by
    unfold RegisterProcessHandler
    rw [hl]
    rfl
  have hl1 : pmLookup
      (m ++ [(p, (⟨sentinelHandler, false, false, 0⟩ :
        PROCESS_HANDLER_INFORMATION))]) p
      = some ⟨sentinelHandler, false, false, 0⟩ :=
    pmLookup_append_self m p _ hl
  have hsw : SwitchProcessHandler true m p h2
      = (NtStatus.Success,
          pmUpdate (m ++ [(p, ⟨sentinelHandler, false, false, 0⟩)]) p
            ⟨h2, true, false, sentinelHandler⟩) := by
    unfold SwitchProcessHandler
    rw [hl, hreg]
    simp [NT_SUCCESS, hl1]
  have hswf : SwitchProcessHandler false m p h2
      = (NtStatus.InsufficientResources, m) := by
    unfold SwitchProcessHandler
    rw [hl, hregf]
    simp [NT_SUCCESS]
  refine ⟨by rw [hsw], ?_, hswf, by rw [hswf]; exact hl⟩
  rw [hsw]
  exact pmLookup_update_self _ p _ _ hl1

/-- Witness for C3: switching the never-seen process 3 to handler 6 from the
empty registry, with both allocation outcomes. -/
theorem C3_witness :
    (SwitchProcessHandler true [] 3 6).1 = NtStatus.Success ∧
      pmLookup (SwitchProcessHandler true [] 3 6).2 3
        = some ⟨6, true, false, sentinelHandler⟩ ∧
      SwitchProcessHandler false [] 3 6 = (NtStatus.InsufficientResources, []) ∧
      pmLookup (SwitchProcessHandler false [] 3 6).2 3 = none :=
  C3_switch_unregistered [] 3 6 (by decide)

/-- C6: starting from the freshly initialized (empty) registry, every sequence
of public operations keeps the keys duplicate-free — at most one entry per
process — and `RegisterProcessHandler` on an already-present key returns
`STATUS_ALREADY_REGISTERED` without inserting a second entry or overwriting
the existing one. -/
theorem C6_unique_key_invariant (ops : List RegistryOp) :
    (pmKeys (runOps ops)).Nodup ∧
      ∀ (b : Bool) (p : PEPROCESS) (h0 : DWORD),
        pmLookup (runOps ops) p ≠ none →
          RegisterProcessHandler b (runOps ops) p h0
            = (NtStatus.AlreadyRegistered, runOps ops) := by
  refine ⟨pmKeys_nodup_runOps ops, ?_⟩
  intro b p h0 hl
  obtain ⟨i, hi⟩ := Option.ne_none_iff_exists'.mp hl
  unfold RegisterProcessHandler
  rw [hi]

/-- Witness for C6: after registering process 1, re-registering it (with a
different handler) is rejected and the state is untouched. -/
theorem C6_witness :
    (pmKeys (runOps [RegistryOp.register true 1 5])).Nodup ∧
      RegisterProcessHandler true (runOps [RegistryOp.register true 1 5]) 1 9
        = (NtStatus.AlreadyRegistered, runOps [RegistryOp.register true 1 5]) :=
  ⟨(C6_unique_key_invariant [RegistryOp.register true 1 5]).1,
    (C6_unique_key_invariant [RegistryOp.register true 1 5]).2 true 1 9
      (by decide)⟩

/-- C7: for a process with no prior entry, `RegisterProcessHandler(P, H)`
succeeds; `GetProcessHandler(P)` then returns `H` with `STATUS_SUCCESS`; after
`UnregisterProcess(P)` (which succeeds), `GetProcessHandler(P)` returns
`STATUS_NOT_FOUND`. -/
theorem C7_register_get_unregister_roundtrip (m : ProcessMapState)
    (p : PEPROCESS) (h0 : DWORD) (hl : pmLookup m p = none) :
    (RegisterProcessHandler true m p h0).1 = NtStatus.Success ∧
      GetProcessHandler false (RegisterProcessHandler true m p h0).2 p
        = (NtStatus.Success, some h0) ∧
      (UnregisterProcess (RegisterProcessHandler true m p h0).2 p).1
        = NtStatus.Success ∧
      GetProcessHandler false
          (UnregisterProcess (RegisterProcessHandler true m p h0).2 p).2 p
        = (NtStatus.NotFound, none) := by
  have hreg : RegisterProcessHandler true m p h0
      = (NtStatus.Success, m ++ [(p, ⟨h0, false, false, 0⟩)]) := by
    unfold RegisterProcessHandler
    rw [hl]
    rfl
  have hl1 : pmLookup
      (m ++ [(p, (⟨h0, false, false, 0⟩ : PROCESS_HANDLER_INFORMATION))]) p
      = some ⟨h0, false, false, 0⟩ := pmLookup_append_self m p _ hl
  have hun : UnregisterProcess
      (m ++ [(p, (⟨h0, false, false, 0⟩ : PROCESS_HANDLER_INFORMATION))]) p
      = (NtStatus.Success, m) := by
    unfold UnregisterProcess
    rw [hl1, pmErase_append_self m p _ hl]
    rfl
  refine ⟨by rw [hreg], ?_, ?_, ?_⟩
  · rw [hreg]
    simp [GetProcessHandler, hl1]
  · rw [hreg]
    simp [hun]
  · rw [hreg]
    simp [hun, GetProcessHandler, hl]

/-- Witness for C7: the round trip for process 2 and handler 5 from the empty
registry. -/
theorem C7_witness :
    (RegisterProcessHandler true [] 2 5).1 = NtStatus.Success ∧
      GetProcessHandler false (RegisterProcessHandler true [] 2 5).2 2
        = (NtStatus.Success, some 5) ∧
      (UnregisterProcess (RegisterProcessHandler true [] 2 5).2 2).1
        = NtStatus.Success ∧
      GetProcessHandler false
          (UnregisterProcess (RegisterProcessHandler true [] 2 5).2 2).2 2
        = (NtStatus.NotFound, none) :=
  C7_register_get_unregister_roundtrip [] 2 5 (by decide)

/-- C8: `UnregisterProcess` on an absent process returns `STATUS_NOT_FOUND`
and leaves the registry (contents, hence size) unchanged; on a present process
it succeeds once, and a second immediate `UnregisterProcess` returns
`STATUS_NOT_FOUND` (keys are unique in every reachable registry state). -/
theorem C8_unregister_absent_and_twice (m : ProcessMapState) (p : PEPROCESS)
    (hnd : (pmKeys m).Nodup) :
    (pmLookup m p = none → UnregisterProcess m p = (NtStatus.NotFound, m)) ∧
      (pmLookup m p ≠ none →
        (UnregisterProcess m p).1 = NtStatus.Success ∧
          (UnregisterProcess (UnregisterProcess m p).2 p).1
            = NtStatus.NotFound) := by
  constructor
  · intro hl
    unfold UnregisterProcess
    rw [hl]
    rfl
  · intro hl
    have hsome : (pmLookup m p).isSome := Option.ne_none_iff_isSome.mp hl
    have hun : UnregisterProcess m p = (NtStatus.Success, pmErase m p) := by
      unfold UnregisterProcess
      rw [if_pos hsome]
    have h2 : pmLookup (pmErase m p) p = none := pmLookup_erase_self m p hnd
    refine ⟨by rw [hun], ?_⟩
    rw [hun]
    show (UnregisterProcess (pmErase m p) p).1 = NtStatus.NotFound
    unfold UnregisterProcess
    rw [h2]
    rfl

/-- Witness for C8: unregistering the absent process 2, then unregistering the
present process 1 twice. -/
theorem C8_witness :
    UnregisterProcess
        [(1, (⟨5, false, false, 0⟩ : PROCESS_HANDLER_INFORMATION))] 2
      = (NtStatus.NotFound, [(1, ⟨5, false, false, 0⟩)]) ∧
      (UnregisterProcess
          [(1, (⟨5, false, false, 0⟩ : PROCESS_HANDLER_INFORMATION))] 1).1
        = NtStatus.Success ∧
      (UnregisterProcess
          (UnregisterProcess
            [(1, (⟨5, false, false, 0⟩ : PROCESS_HANDLER_INFORMATION))] 1).2
          1).1
        = NtStatus.NotFound :=
  ⟨(C8_unregister_absent_and_twice [(1, ⟨5, false, false, 0⟩)] 2
        (by decide)).1 (by decide),
    (C8_unregister_absent_and_twice [(1, ⟨5, false, false, 0⟩)] 1
        (by decide)).2 (by decide)⟩

/-- C10: `SwitchProcessHandler` never compares the new handler to the current
one: from `Registered(H)` (entry present, `HasParentHandler` false), switching
to the same handler `H` succeeds and leaves a delegated entry with
`Handler = H`, `ParentHandler = H` and `HasParentHandler = true`, consuming
the single allowed handoff. -/
theorem C10_switch_to_same_handler_succeeds (b : Bool) (m : ProcessMapState)
    (p : PEPROCESS) (h0 : DWORD) (info : PROCESS_HANDLER_INFORMATION)
    (hl : pmLookup m p = some info) (hp : info.HasParentHandler = false)
    (hh : info.Handler = h0) :
    (SwitchProcessHandler b m p h0).1 = NtStatus.Success ∧
      pmLookup (SwitchProcessHandler b m p h0).2 p
        = some ⟨h0, true, true, h0⟩ := by
  have hsw : SwitchProcessHandler b m p h0
      = (NtStatus.Success, pmUpdate m p ⟨h0, true, true, h0⟩) := by
    unfold SwitchProcessHandler
    rw [hl]
    simp [hp, hh]
  rw [hsw]
  exact ⟨rfl, pmLookup_update_self m p _ info hl⟩

/-- Witness for C10: process 4 owned by handler 7 self-delegates to handler 7. -/
theorem C10_witness :
    (SwitchProcessHandler true [(4, ⟨7, false, false, 0⟩)] 4 7).1
        = NtStatus.Success ∧
      pmLookup (SwitchProcessHandler true [(4, ⟨7, false, false, 0⟩)] 4 7).2 4
        = some ⟨7, true, true, 7⟩ :=
  C10_switch_to_same_handler_succeeds true [(4, ⟨7, false, false, 0⟩)] 4 7
    ⟨7, false, false, 0⟩ (by decide) (by decide) (by decide)

/-- C4 (failing input): at message `"M"` (byte 77) and status `-10`, the
fail-and-terminate path does write the message and then `": "`, digits and a
newline to file descriptor 2 through the raw primitive — but the digit loop
emits the least significant digit first and never reverses, so the status
string is `": 01\n"` (bytes `[58, 32, 48, 49, 10]`), not the decimal numeral
`"10"`: the loop yields `"01"` (`[48, 49]`) where the most-significant-digit-
first decimal rendering the claim describes is `"10"` (`[49, 48]`).  The digit
loop has also divided `status` down to 0 by the time of the final
`LinuxSyscall(SYS_exit, status)`, so the process exits with status 0. -/
theorem C4_digit_order_bug :
    LinuxFail [77] (-10)
      = [SysEvent.write 2 [77], SysEvent.write 2 [58, 32, 48, 49, 10],
          SysEvent.exitWith 0] ∧
      failDigitsLoop 10 = [48, 49] ∧
      msdDecimalRendering 10 = [49, 48] := by
  refine ⟨by decide, by decide, by decide⟩

/-- C5 (failing observation): `m_mutex` is initialized by
`ProcessMap::Initialize` but no public registry operation of `ProcessMap.cpp`
ever acquires (or releases) it — every operation's lock trace is empty — so
registry mutations and lookups are not made mutually exclusive by the code. -/
theorem C5_no_lock_acquisition :
    lookupLockEvents.count LockEvent.acquire = 0 ∧
      registerLockEvents.count LockEvent.acquire = 0 ∧
      getHandlerLockEvents.count LockEvent.acquire = 0 ∧
      belongsToHandlerLockEvents.count LockEvent.acquire = 0 ∧
      switchLockEvents.count LockEvent.acquire = 0 ∧
      unregisterLockEvents.count LockEvent.acquire = 0 := by
  decide

/-- C9: the loader's `mknod` bootstrap step takes the fatal diagnostic path
exactly on a negative status other than `-EEXIST` — an "already exists" result
is treated as success and the loader proceeds to open the device — and the
mode passed for `/dev/reality` is a character device whose permission bits
(the low 12 bits) are exactly read-for-owner, read-for-group and
read-for-other. -/
theorem C9_mknod_idempotent_and_readonly :
    (∀ s : Int, mknodStepFatal s = true ↔ (s < 0 ∧ s ≠ -EEXIST)) ∧
      realityDeviceMode = S_IFCHR + (S_IRUSR + S_IRGRP + S_IROTH) ∧
      realityDeviceMode % 4096 = S_IRUSR + S_IRGRP + S_IROTH := by
  refine ⟨?_, by decide, by decide⟩
  intro s
  simp [mknodStepFatal]
